import Mathlib

/-!
Shallow embedding of the telephonepi conversation driver
(`src/assistant.py` and `src/textinput.py`).

Bytes are modelled as `List Nat`; protobuf message types become
structures; the gRPC inbound stream of a turn becomes a
`List AssistResponse`; per-event side effects on the audio transport are
recorded as explicit state plus a trace of invoked actions.
-/

namespace TelephonePi

/-- `DialogStateOut.microphone_mode` values of the embedded assistant
protocol: `DIALOG_FOLLOW_ON`, `CLOSE_MICROPHONE`, or unspecified. -/
inductive MicrophoneMode
  | unspecified
  | followOn
  | closeMicrophone
  deriving DecidableEq, Repr

/-- `AssistResponse.event_type`: either `END_OF_UTTERANCE` or unspecified. -/
inductive EventType
  | unspecified
  | endOfUtterance
  deriving DecidableEq, Repr

/-- `AssistResponse.audio_out`: synthesized audio payload. -/
structure AudioOut where
  audio_data : List Nat
  deriving DecidableEq, Repr

/-- `AssistResponse.screen_out`: rich HTML payload. -/
structure ScreenOut where
  data : List Nat
  deriving DecidableEq, Repr

/-- `AssistResponse.dialog_state_out`: dialog directives of one inbound
event.  An empty list / zero / `unspecified` / empty string models the
protobuf default (absent) value. -/
structure DialogStateOut where
  conversation_state : List Nat
  volume_percentage : Nat
  microphone_mode : MicrophoneMode
  supplemental_display_text : String
  deriving DecidableEq, Repr

/-- One inbound `AssistResponse` event. -/
structure AssistResponse where
  event_type : EventType
  speech_results : List String
  audio_out : AudioOut
  dialog_state_out : DialogStateOut
  screen_out : ScreenOut
  deriving DecidableEq, Repr

/-- An `AssistResponse` with every field at its protobuf default. -/
def emptyResponse : AssistResponse :=
  { event_type := .unspecified
    speech_results := []
    audio_out := { audio_data := [] }
    dialog_state_out :=
      { conversation_state := []
        volume_percentage := 0
        microphone_mode := .unspecified
        supplemental_display_text := "" }
    screen_out := { data := [] } }

/-- Actions the driver can invoke on the audio transport
(`ConversationStream` in `audio_helpers`). -/
inductive StreamAction
  | startRecording
  | stopRecording
  | startPlayback
  | stopPlayback
  deriving DecidableEq, Repr

/-- State of the audio transport as seen by the driver, per the external
collaborator contract of the spec (start/stop recording and playback,
a `playing` query, a mutable `volume_percentage`, a fixed `sample_rate`,
writable playback bytes).  `trace` records every control action the
driver invokes, in order. -/
structure ConversationStream where
  sample_rate : Nat
  volume_percentage : Nat
  playing : Bool
  recording : Bool
  written : List (List Nat)
  trace : List StreamAction
  deriving DecidableEq, Repr

def ConversationStream.start_recording (s : ConversationStream) : ConversationStream :=
  { s with recording := true, trace := s.trace ++ [.startRecording] }

def ConversationStream.stop_recording (s : ConversationStream) : ConversationStream :=
  { s with recording := false, trace := s.trace ++ [.stopRecording] }

def ConversationStream.start_playback (s : ConversationStream) : ConversationStream :=
  { s with playing := true, trace := s.trace ++ [.startPlayback] }

def ConversationStream.stop_playback (s : ConversationStream) : ConversationStream :=
  { s with playing := false, trace := s.trace ++ [.stopPlayback] }

def ConversationStream.write (s : ConversationStream) (data : List Nat) : ConversationStream :=
  { s with written := s.written ++ [data] }

/-- `AudioInConfig` of the outbound `AssistConfig`. -/
structure AudioInConfig where
  encoding : String
  sample_rate_hertz : Nat
  deriving DecidableEq, Repr

/-- `AudioOutConfig` of the outbound `AssistConfig`. -/
structure AudioOutConfig where
  encoding : String
  sample_rate_hertz : Nat
  volume_percentage : Nat
  deriving DecidableEq, Repr

/-- `DialogStateIn` of the outbound `AssistConfig`. -/
structure DialogStateIn where
  language_code : String
  conversation_state : Option (List Nat)
  is_new_conversation : Bool
  deriving DecidableEq, Repr

/-- `DeviceConfig` of the outbound `AssistConfig`. -/
structure DeviceConfig where
  device_id : String
  device_model_id : String
  deriving DecidableEq, Repr

/-- The outbound `AssistConfig` envelope contents.  `audio_in_config` is
`none` for the text variant (which sets `text_query` instead);
`screen_mode_playing` models `screen_out_config.screen_mode = PLAYING`. -/
structure AssistConfig where
  audio_in_config : Option AudioInConfig
  audio_out_config : AudioOutConfig
  dialog_state_in : DialogStateIn
  device_config : DeviceConfig
  screen_mode_playing : Bool
  text_query : Option String
  deriving DecidableEq, Repr

/-- One outbound `AssistRequest`: either the config envelope or an audio
chunk (`audio_in`). -/
inductive AssistRequest
  | config (c : AssistConfig)
  | audio_in (data : List Nat)
  deriving DecidableEq, Repr

def AssistRequest.isConfig : AssistRequest → Bool
  | .config _ => true
  | .audio_in _ => false

/-- Constants of `assistant.py`. -/
def DEVICE_MODEL_ID : String := "telephonepi-telephonepi-01z0jk"

def LANGUAGE_CODE : String := "en-US"

/-- The persistent fields of the `Assistant` class
(`assistant.py`, `__init__`). -/
structure Assistant where
  language_code : String
  device_model_id : String
  display : Bool
  device_id : String
  conversation_state : Option (List Nat)
  is_new_conversation : Bool
  deriving DecidableEq, Repr

/-- `Assistant.__init__`: `conversation_state = None`,
`is_new_conversation = True`. -/
def Assistant.init (device_id : String) : Assistant :=
  { language_code := LANGUAGE_CODE
    device_model_id := DEVICE_MODEL_ID
    display := false
    device_id := device_id
    conversation_state := none
    is_new_conversation := true }

/-- `Assistant.gen_assist_requests` (assistant.py lines 134-165): builds
the config envelope from the current fields, clears
`is_new_conversation`, yields the config request first, then one
`audio_in` request per chunk read from the conversation stream.
`chunks` is the sequence of audio chunks the stream yields this turn. -/
def Assistant.gen_assist_requests (a : Assistant) (stream : ConversationStream)
    (chunks : List (List Nat)) : List AssistRequest × Assistant :=
  let config : AssistConfig :=
    { audio_in_config := some
        { encoding := "LINEAR16", sample_rate_hertz := stream.sample_rate }
      audio_out_config :=
        { encoding := "LINEAR16"
          sample_rate_hertz := stream.sample_rate
          volume_percentage := stream.volume_percentage }
      dialog_state_in :=
        { language_code := a.language_code
          conversation_state := a.conversation_state
          is_new_conversation := a.is_new_conversation }
      device_config :=
        { device_id := a.device_id, device_model_id := a.device_model_id }
      screen_mode_playing := a.display
      text_query := none }
  (AssistRequest.config config :: chunks.map AssistRequest.audio_in,
    { a with is_new_conversation := false })

/-- Mutable state of one voice turn's response loop: the
`continue_conversation` local, the assistant's `conversation_state`
field, and the audio transport. -/
structure TurnState where
  continue_conversation : Bool
  conversation_state : Option (List Nat)
  stream : ConversationStream
  deriving DecidableEq, Repr

/-- Body of the response loop of `Assistant.assist`
(assistant.py lines 96-124), applied to one inbound event. -/
def processResp (ts : TurnState) (resp : AssistResponse) : TurnState :=
  let ts :=
    if resp.event_type = EventType.endOfUtterance then
      { ts with stream := ts.stream.stop_recording }
    else ts
  -- speech_results are only logged: no state effect.
  let ts :=
    if 0 < resp.audio_out.audio_data.length then
      let s :=
        if ts.stream.playing then ts.stream
        else (ts.stream.stop_recording).start_playback
      { ts with stream := s.write resp.audio_out.audio_data }
    else ts
  let ts :=
    if resp.dialog_state_out.conversation_state ≠ [] then
      { ts with conversation_state := some resp.dialog_state_out.conversation_state }
    else ts
  let ts :=
    if resp.dialog_state_out.volume_percentage ≠ 0 then
      { ts with stream :=
          { ts.stream with volume_percentage := resp.dialog_state_out.volume_percentage } }
    else ts
  if resp.dialog_state_out.microphone_mode = MicrophoneMode.followOn then
    { ts with continue_conversation := true }
  else if resp.dialog_state_out.microphone_mode = MicrophoneMode.closeMicrophone then
    { ts with continue_conversation := false }
  else ts

/-- Result of one voice turn. -/
structure TurnResult where
  assistant : Assistant
  stream : ConversationStream
  continue_conversation : Bool
  requests : List AssistRequest
  deriving DecidableEq, Repr

/-- `Assistant.assist` (assistant.py lines 78-132), one successful turn:
start recording, generate the outbound requests (config first, clearing
`is_new_conversation`), fold the response loop over the inbound events,
then stop playback unconditionally and return `continue_conversation`.
`device_actions_futures` is always empty, so the wait is a no-op. -/
def Assistant.assist (a : Assistant) (stream : ConversationStream)
    (chunks : List (List Nat)) (resps : List AssistResponse) : TurnResult :=
  let stream := stream.start_recording
  let gen := a.gen_assist_requests stream chunks
  let a2 := gen.2
  let ts0 : TurnState :=
    { continue_conversation := false
      conversation_state := a2.conversation_state
      stream := stream }
  let ts := resps.foldl processResp ts0
  { assistant := { a2 with conversation_state := ts.conversation_state }
    stream := ts.stream.stop_playback
    continue_conversation := ts.continue_conversation
    requests := gen.1 }

/-- The persistent fields of the `SampleTextAssistant` class
(`textinput.py`, `__init__`): `conversation_state = None`,
`is_new_conversation = True`. -/
structure SampleTextAssistant where
  language_code : String
  device_model_id : String
  device_id : String
  conversation_state : Option (List Nat)
  is_new_conversation : Bool
  display : Bool
  deriving DecidableEq, Repr

def SampleTextAssistant.init (language_code device_model_id device_id : String)
    (display : Bool) : SampleTextAssistant :=
  { language_code := language_code
    device_model_id := device_model_id
    device_id := device_id
    conversation_state := none
    is_new_conversation := true
    display := display }

/-- Mutable state of one text turn's response loop: the `text_response`
and `html_response` locals plus the assistant's `conversation_state`. -/
structure TextTurnState where
  text_response : Option String
  html_response : Option (List Nat)
  conversation_state : Option (List Nat)
  deriving DecidableEq, Repr

/-- Body of the response loop of `SampleTextAssistant.assist`
(textinput.py lines 69-76), applied to one inbound event. -/
def processTextResp (ts : TextTurnState) (resp : AssistResponse) : TextTurnState :=
  let ts :=
    if resp.screen_out.data ≠ [] then
      { ts with html_response := some resp.screen_out.data }
    else ts
  let ts :=
    if resp.dialog_state_out.conversation_state ≠ [] then
      { ts with conversation_state := some resp.dialog_state_out.conversation_state }
    else ts
  if resp.dialog_state_out.supplemental_display_text ≠ "" then
    { ts with text_response := some resp.dialog_state_out.supplemental_display_text }
  else ts

/-- Result of one text turn. -/
structure TextTurnResult where
  assistant : SampleTextAssistant
  text_response : Option String
  html_response : Option (List Nat)
  requests : List AssistRequest
  deriving DecidableEq, Repr

/-- `SampleTextAssistant.assist` (textinput.py lines 41-77): one config-only
outbound request carrying `text_query`, `is_new_conversation` cleared after
building it, then the response loop collecting the last non-empty
`screen_out.data`, `conversation_state` and `supplemental_display_text`. -/
def SampleTextAssistant.assist (a : SampleTextAssistant) (text_query : String)
    (resps : List AssistResponse) : TextTurnResult :=
  let config : AssistConfig :=
    { audio_in_config := none
      audio_out_config :=
        { encoding := "LINEAR16", sample_rate_hertz := 16000, volume_percentage := 0 }
      dialog_state_in :=
        { language_code := a.language_code
          conversation_state := a.conversation_state
          is_new_conversation := a.is_new_conversation }
      device_config :=
        { device_id := a.device_id, device_model_id := a.device_model_id }
      screen_mode_playing := a.display
      text_query := some text_query }
  let a := { a with is_new_conversation := false }
  let ts0 : TextTurnState :=
    { text_response := none, html_response := none
      conversation_state := a.conversation_state }
  let ts := resps.foldl processTextResp ts0
  { assistant := { a with conversation_state := ts.conversation_state }
    text_response := ts.text_response
    html_response := ts.html_response
    requests := [AssistRequest.config config] }

/-- gRPC status codes distinguished by the retry predicate. -/
inductive StatusCode
  | unavailable
  | deadlineExceeded
  | internal
  | unknown
  deriving DecidableEq, Repr

/-- Failure kinds a turn can raise: a gRPC `RpcError` carrying a status
code, an audio device error, or any other exception. -/
inductive Failure
  | rpcError (code : StatusCode)
  | audioDeviceError
  | otherError
  deriving DecidableEq, Repr

/-- `Assistant.is_grpc_error_unavailable` (assistant.py lines 66-71):
true exactly for a gRPC error whose status code is `UNAVAILABLE`. -/
def is_grpc_error_unavailable : Failure → Bool
  | .rpcError .unavailable => true
  | _ => false

/-- The tenacity retry loop with `reraise=True`:
run the attempt; on success return it; on failure, if no retries remain
or the retry predicate rejects the failure, re-raise it unchanged,
otherwise re-attempt.  Returns the outcome together with the number of
the attempt that produced it.  `run n` is the outcome of attempt `n`. -/
def retryLoop (pred : Failure → Bool) (run : Nat → Except Failure Bool) :
    Nat → Nat → Except Failure Bool × Nat
  | attempt, 0 =>
    match run attempt with
    | .ok v => (.ok v, attempt)
    | .error e => (.error e, attempt)
  | attempt, remaining + 1 =>
    match run attempt with
    | .ok v => (.ok v, attempt)
    | .error e =>
      if pred e then retryLoop pred run (attempt + 1) remaining
      else (.error e, attempt)

/-- The `@retry(reraise=True, stop=stop_after_attempt(3),
retry=retry_if_exception(is_grpc_error_unavailable))` decorator on
`Assistant.assist` (assistant.py lines 73-77): at most 3 total attempts,
retrying only on gRPC-unavailable failures. -/
def assistWithRetry (run : Nat → Except Failure Bool) : Except Failure Bool × Nat :=
  retryLoop is_grpc_error_unavailable run 1 2

/-- Input of one voice turn: the audio chunks the transport yields and
the inbound response events. -/
structure TurnInput where
  chunks : List (List Nat)
  resps : List AssistResponse
  deriving DecidableEq, Repr

/-- Sequential voice turns on one `Assistant` instance, collecting each
turn's outbound request list. -/
def runTurns (a : Assistant) (stream : ConversationStream) :
    List TurnInput → List (List AssistRequest) × Assistant × ConversationStream
  | [] => ([], a, stream)
  | t :: ts =>
    let r := a.assist stream t.chunks t.resps
    let rest := runTurns r.assistant r.stream ts
    (r.requests :: rest.1, rest.2)

/-- Sequential text turns on one `SampleTextAssistant` instance,
collecting each turn's outbound request list. -/
def runTextTurns (a : SampleTextAssistant) :
    List (String × List AssistResponse) → List (List AssistRequest) × SampleTextAssistant
  | [] => ([], a)
  | t :: ts =>
    let r := a.assist t.1 t.2
    let rest := runTextTurns r.assistant ts
    (r.requests :: rest.1, rest.2)

/-- The `is_new_conversation` flags of the config envelopes in a request
sequence, in order. -/
def configFlags (reqs : List AssistRequest) : List Bool :=
  reqs.filterMap fun r =>
    match r with
    | .config c => some c.dialog_state_in.is_new_conversation
    | .audio_in _ => none

/-- The last microphone-mode directive (follow-on or close) carried by a
response sequence, if any. -/
def lastMicDirective : List AssistResponse → Option MicrophoneMode
  | [] => none
  | r :: rs =>
    match lastMicDirective rs with
    | some m => some m
    | none =>
      if r.dialog_state_out.microphone_mode = MicrophoneMode.followOn ∨
          r.dialog_state_out.microphone_mode = MicrophoneMode.closeMicrophone then
        some r.dialog_state_out.microphone_mode
      else none

/-- The last non-empty `conversation_state` payload carried by a response
sequence, if any. -/
def lastNonEmptyConvState : List AssistResponse → Option (List Nat)
  | [] => none
  | r :: rs =>
    match lastNonEmptyConvState rs with
    | some cs => some cs
    | none =>
      if r.dialog_state_out.conversation_state ≠ [] then
        some r.dialog_state_out.conversation_state
      else none

/-- The last non-empty `supplemental_display_text` carried by a response
sequence, if any. -/
def lastSupplementalText : List AssistResponse → Option String
  | [] => none
  | r :: rs =>
    match lastSupplementalText rs with
    | some t => some t
    | none =>
      if r.dialog_state_out.supplemental_display_text ≠ "" then
        some r.dialog_state_out.supplemental_display_text
      else none

/-- The last non-empty `screen_out.data` payload carried by a response
sequence, if any. -/
def lastScreenData : List AssistResponse → Option (List Nat)
  | [] => none
  | r :: rs =>
    match lastScreenData rs with
    | some d => some d
    | none =>
      if r.screen_out.data ≠ [] then some r.screen_out.data else none

/-! Per-event projection lemmas for the voice response-loop body. -/

lemma processResp_continue (ts : TurnState) (r : AssistResponse) :
    (processResp ts r).continue_conversation =
      if r.dialog_state_out.microphone_mode = MicrophoneMode.followOn then true
      else if r.dialog_state_out.microphone_mode = MicrophoneMode.closeMicrophone then false
      else ts.continue_conversation := by
  simp only [processResp]
  split_ifs <;> rfl

lemma processResp_conv_state (ts : TurnState) (r : AssistResponse) :
    (processResp ts r).conversation_state =
      if r.dialog_state_out.conversation_state ≠ [] then
        some r.dialog_state_out.conversation_state
      else ts.conversation_state := by
  simp only [processResp]
  split_ifs <;> rfl

lemma processResp_volume (ts : TurnState) (r : AssistResponse) :
    (processResp ts r).stream.volume_percentage =
      if r.dialog_state_out.volume_percentage ≠ 0 then r.dialog_state_out.volume_percentage
      else ts.stream.volume_percentage := by
  simp only [processResp]
  split_ifs <;> rfl

/-! Per-event projection lemmas for the text response-loop body. -/

lemma processTextResp_conv_state (ts : TextTurnState) (r : AssistResponse) :
    (processTextResp ts r).conversation_state =
      if r.dialog_state_out.conversation_state ≠ [] then
        some r.dialog_state_out.conversation_state
      else ts.conversation_state := by
  simp only [processTextResp]
  split_ifs <;> rfl

lemma processTextResp_text (ts : TextTurnState) (r : AssistResponse) :
    (processTextResp ts r).text_response =
      if r.dialog_state_out.supplemental_display_text ≠ "" then
        some r.dialog_state_out.supplemental_display_text
      else ts.text_response := by
  simp only [processTextResp]
  split_ifs <;> rfl

lemma processTextResp_html (ts : TextTurnState) (r : AssistResponse) :
    (processTextResp ts r).html_response =
      if r.screen_out.data ≠ [] then some r.screen_out.data
      else ts.html_response := by
  simp only [processTextResp]
  split_ifs <;> rfl

/-- `lastMicDirective` only ever returns a follow-on or close directive. -/
lemma lastMicDirective_range (resps : List AssistResponse) (m : MicrophoneMode)
    (h : lastMicDirective resps = some m) :
    m = MicrophoneMode.followOn ∨ m = MicrophoneMode.closeMicrophone := by
  induction resps with
  | nil => simp [lastMicDirective] at h
  | cons r rs ih =>
    simp only [lastMicDirective] at h
    cases hr : lastMicDirective rs with
    | some k =>
      rw [hr] at h
      obtain rfl : k = m := Option.some_inj.mp h
      exact ih hr
    | none =>
      rw [hr] at h
      split_ifs at h with hc
      exact Option.some_inj.mp h ▸ hc

/-- The `continue_conversation` local after the response loop is the
last-write-wins value of the microphone-mode directives. -/
lemma foldl_processResp_continue (resps : List AssistResponse) :
    ∀ ts : TurnState, (resps.foldl processResp ts).continue_conversation =
      match lastMicDirective resps with
      | some MicrophoneMode.followOn => true
      | some MicrophoneMode.closeMicrophone => false
      | _ => ts.continue_conversation := by
  induction resps with
  | nil => intro ts; rfl
  | cons r rs ih =>
    intro ts
    rw [List.foldl_cons, ih (processResp ts r), processResp_continue]
    cases hr : lastMicDirective rs with
    | some k =>
      rcases lastMicDirective_range rs k hr with hk | hk <;> subst hk <;>
        simp [lastMicDirective, hr]
    | none =>
      cases hm : r.dialog_state_out.microphone_mode <;>
        simp [lastMicDirective, hr, hm]

/-- The stored conversation state after the response loop is the last
non-empty `conversation_state` payload, if any. -/
lemma foldl_processResp_conv (resps : List AssistResponse) :
    ∀ ts : TurnState, (resps.foldl processResp ts).conversation_state =
      match lastNonEmptyConvState resps with
      | some cs => some cs
      | none => ts.conversation_state := by
  induction resps with
  | nil => intro ts; rfl
  | cons r rs ih =>
    intro ts
    rw [List.foldl_cons, ih (processResp ts r), processResp_conv_state]
    cases hr : lastNonEmptyConvState rs with
    | some cs => simp [lastNonEmptyConvState, hr]
    | none =>
      by_cases hc : r.dialog_state_out.conversation_state = [] <;>
        simp [lastNonEmptyConvState, hr, hc]

/-- The stored conversation state after the text response loop is the
last non-empty `conversation_state` payload, if any. -/
lemma foldl_processTextResp_conv (resps : List AssistResponse) :
    ∀ ts : TextTurnState, (resps.foldl processTextResp ts).conversation_state =
      match lastNonEmptyConvState resps with
      | some cs => some cs
      | none => ts.conversation_state := by
  induction resps with
  | nil => intro ts; rfl
  | cons r rs ih =>
    intro ts
    rw [List.foldl_cons, ih (processTextResp ts r), processTextResp_conv_state]
    cases hr : lastNonEmptyConvState rs with
    | some cs => simp [lastNonEmptyConvState, hr]
    | none =>
      by_cases hc : r.dialog_state_out.conversation_state = [] <;>
        simp [lastNonEmptyConvState, hr, hc]

/-- The `text_response` local after the text response loop is the last
non-empty supplemental display text, if any. -/
lemma foldl_processTextResp_text (resps : List AssistResponse) :
    ∀ ts : TextTurnState, (resps.foldl processTextResp ts).text_response =
      match lastSupplementalText resps with
      | some t => some t
      | none => ts.text_response := by
  induction resps with
  | nil => intro ts; rfl
  | cons r rs ih =>
    intro ts
    rw [List.foldl_cons, ih (processTextResp ts r), processTextResp_text]
    cases hr : lastSupplementalText rs with
    | some t => simp [lastSupplementalText, hr]
    | none =>
      by_cases hc : r.dialog_state_out.supplemental_display_text = "" <;>
        simp [lastSupplementalText, hr, hc]

/-- The `html_response` local after the text response loop is the last
non-empty `screen_out.data`, if any. -/
lemma foldl_processTextResp_html (resps : List AssistResponse) :
    ∀ ts : TextTurnState, (resps.foldl processTextResp ts).html_response =
      match lastScreenData resps with
      | some d => some d
      | none => ts.html_response := by
  induction resps with
  | nil => intro ts; rfl
  | cons r rs ih =>
    intro ts
    rw [List.foldl_cons, ih (processTextResp ts r), processTextResp_html]
    cases hr : lastScreenData rs with
    | some d => simp [lastScreenData, hr]
    | none =>
      by_cases hc : r.screen_out.data = [] <;>
        simp [lastScreenData, hr, hc]

/-- An event with no audio payload never touches the playback controls:
the counts of start-playback and stop-playback invocations in the
transport trace are unchanged by the loop body. -/
lemma processResp_playback_counts (ts : TurnState) (r : AssistResponse)
    (h : r.audio_out.audio_data = []) :
    (processResp ts r).stream.trace.count StreamAction.startPlayback
        = ts.stream.trace.count StreamAction.startPlayback ∧
    (processResp ts r).stream.trace.count StreamAction.stopPlayback
        = ts.stream.trace.count StreamAction.stopPlayback := by
  simp only [processResp, h, List.length_nil, lt_irrefl, if_false]
  split_ifs <;>
    simp [ConversationStream.stop_recording, List.count_append]

/-- Lifting `processResp_playback_counts` to the whole response loop. -/
lemma foldl_processResp_playback_counts (resps : List AssistResponse) :
    ∀ ts : TurnState, (∀ r ∈ resps, r.audio_out.audio_data = []) →
      (resps.foldl processResp ts).stream.trace.count StreamAction.startPlayback
          = ts.stream.trace.count StreamAction.startPlayback ∧
      (resps.foldl processResp ts).stream.trace.count StreamAction.stopPlayback
          = ts.stream.trace.count StreamAction.stopPlayback := by
  induction resps with
  | nil => intro ts _; exact ⟨rfl, rfl⟩
  | cons r rs ih =>
    intro ts h
    have hr := processResp_playback_counts ts r (h r (by simp))
    have hrs := ih (processResp ts r) (fun x hx => h x (by simp [hx]))
    rw [List.foldl_cons]
    exact ⟨hrs.1.trans hr.1, hrs.2.trans hr.2⟩

/-- The config flags of a voice turn's outbound requests: exactly the
one `is_new_conversation` value the turn was entered with. -/
lemma configFlags_gen (a : Assistant) (s : ConversationStream)
    (chunks : List (List Nat)) :
    configFlags (a.gen_assist_requests s chunks).1 = [a.is_new_conversation] := by
  simp only [Assistant.gen_assist_requests, configFlags, List.filterMap_cons]
  induction chunks with
  | nil => rfl
  | cons c cs ih => exact ih

lemma assist_configFlags (a : Assistant) (s : ConversationStream)
    (chunks : List (List Nat)) (resps : List AssistResponse) :
    configFlags (a.assist s chunks resps).requests = [a.is_new_conversation] :=
  configFlags_gen a s.start_recording chunks

lemma assist_is_new_false (a : Assistant) (s : ConversationStream)
    (chunks : List (List Nat)) (resps : List AssistResponse) :
    (a.assist s chunks resps).assistant.is_new_conversation = false := rfl

lemma textAssist_configFlags (a : SampleTextAssistant) (q : String)
    (resps : List AssistResponse) :
    configFlags (a.assist q resps).requests = [a.is_new_conversation] := rfl

lemma textAssist_is_new_false (a : SampleTextAssistant) (q : String)
    (resps : List AssistResponse) :
    (a.assist q resps).assistant.is_new_conversation = false := rfl

/-- All `is_new_conversation` flags emitted by a sequence of voice
turns, in order. -/
def voiceFlags (a : Assistant) (s : ConversationStream)
    (turns : List TurnInput) : List Bool :=
  ((runTurns a s turns).1.map configFlags).flatten

/-- All `is_new_conversation` flags emitted by a sequence of text turns,
in order. -/
def textFlags (a : SampleTextAssistant)
    (turns : List (String × List AssistResponse)) : List Bool :=
  ((runTextTurns a turns).1.map configFlags).flatten

lemma voiceFlags_of_not_new (turns : List TurnInput) :
    ∀ (a : Assistant) (s : ConversationStream),
      a.is_new_conversation = false →
      voiceFlags a s turns = List.replicate turns.length false := by
  induction turns with
  | nil => intro a s _; rfl
  | cons t ts ih =>
    intro a s h
    have hrec := ih (a.assist s t.chunks t.resps).assistant
      (a.assist s t.chunks t.resps).stream (assist_is_new_false a s t.chunks t.resps)
    unfold voiceFlags at hrec
    simp [voiceFlags, runTurns, assist_configFlags, h, hrec, List.replicate_succ]

lemma textFlags_of_not_new (turns : List (String × List AssistResponse)) :
    ∀ a : SampleTextAssistant,
      a.is_new_conversation = false →
      textFlags a turns = List.replicate turns.length false := by
  induction turns with
  | nil => intro a _; rfl
  | cons t ts ih =>
    intro a h
    have hrec := ih (a.assist t.1 t.2).assistant (textAssist_is_new_false a t.1 t.2)
    unfold textFlags at hrec
    simp [textFlags, runTextTurns, textAssist_configFlags, h, hrec, List.replicate_succ]

/-- The attempt number `retryLoop` returns never exceeds the starting
attempt number plus the remaining retries. -/
lemma retryLoop_attempts_le (pred : Failure → Bool) (run : Nat → Except Failure Bool) :
    ∀ (remaining attempt : Nat),
      (retryLoop pred run attempt remaining).2 ≤ attempt + remaining := by
  intro remaining
  induction remaining with
  | zero =>
    intro attempt
    simp only [retryLoop]
    cases run attempt <;> simp
  | succ rem ih =>
    intro attempt
    simp only [retryLoop]
    cases run attempt with
    | ok v => simp
    | error e =>
      cases hp : pred e with
      | true =>
        have := ih (attempt + 1)
        simp only [hp, if_true]
        omega
      | false =>
        simp [hp]

/-- The assistant and stream of one voice turn, with the conversation
state after the response loop made explicit. -/
lemma assist_conv_state (a : Assistant) (s : ConversationStream)
    (chunks : List (List Nat)) (resps : List AssistResponse) :
    (a.assist s chunks resps).assistant.conversation_state =
      match lastNonEmptyConvState resps with
      | some cs => some cs
      | none => a.conversation_state := by
  show (resps.foldl processResp _).conversation_state = _
  rw [foldl_processResp_conv]
  cases lastNonEmptyConvState resps <;> rfl

/-- The first outbound request of a voice turn is the config envelope,
whose `dialog_state_in.conversation_state` is the assistant's stored
state at turn entry. -/
lemma assist_requests_head_conv (a : Assistant) (s : ConversationStream)
    (chunks : List (List Nat)) (resps : List AssistResponse) :
    ∃ c, (a.assist s chunks resps).requests.head? = some (AssistRequest.config c) ∧
      c.dialog_state_in.conversation_state = a.conversation_state :=
  ⟨_, rfl, rfl⟩

/-! Concrete fixtures used by witnesses and counterexamples. -/

/-- A fresh audio transport: not recording, not playing, volume 50. -/
def stream0 : ConversationStream :=
  { sample_rate := 16000
    volume_percentage := 50
    playing := false
    recording := false
    written := []
    trace := [] }

/-- A response carrying only a microphone-mode directive. -/
def micResp (m : MicrophoneMode) : AssistResponse :=
  { emptyResponse with dialog_state_out :=
      { emptyResponse.dialog_state_out with microphone_mode := m } }

/-- A response carrying only a volume-percentage directive. -/
def volResp (v : Nat) : AssistResponse :=
  { emptyResponse with dialog_state_out :=
      { emptyResponse.dialog_state_out with volume_percentage := v } }

/-- A response carrying only a conversation-state payload. -/
def csResp (cs : List Nat) : AssistResponse :=
  { emptyResponse with dialog_state_out :=
      { emptyResponse.dialog_state_out with conversation_state := cs } }

/-- An initial response-loop state over `stream0`. -/
def turnState0 : TurnState :=
  { continue_conversation := false
    conversation_state := none
    stream := stream0 }

/-- A run that raises gRPC UNAVAILABLE on the first two attempts and
succeeds on the third. -/
def runUnavailTwice : Nat → Except Failure Bool :=
  fun n => if n ≤ 2 then Except.error (Failure.rpcError StatusCode.unavailable)
    else Except.ok true

/-- C1: the continuation value returned by a voice turn is last-write-wins
over the microphone-mode directives: it is true iff the last
follow-on/close directive of the inbound sequence is follow-on, false when
no such directive was received; in particular [close, follow-on] and
[follow-on, close, follow-on] both yield true and the empty sequence
yields false. -/
theorem C1_continuation_last_write_wins :
    (∀ (a : Assistant) (s : ConversationStream) (chunks : List (List Nat))
        (resps : List AssistResponse),
      (a.assist s chunks resps).continue_conversation =
        decide (lastMicDirective resps = some MicrophoneMode.followOn)) ∧
    ((Assistant.init "device-1").assist stream0 []
        [micResp MicrophoneMode.closeMicrophone,
          micResp MicrophoneMode.followOn]).continue_conversation = true ∧
    ((Assistant.init "device-1").assist stream0 []
        [micResp MicrophoneMode.followOn, micResp MicrophoneMode.closeMicrophone,
          micResp MicrophoneMode.followOn]).continue_conversation = true ∧
    ((Assistant.init "device-1").assist stream0 [] []).continue_conversation = false := by
  refine ⟨?_, rfl, rfl, rfl⟩
  intro a s chunks resps
  show (resps.foldl processResp _).continue_conversation = _
  rw [foldl_processResp_continue]
  cases hr : lastMicDirective resps with
  | none => rfl
  | some m => rcases lastMicDirective_range resps m hr with rfl | rfl <;> rfl

/-- C2: every voice turn's outbound sequence contains exactly one config
envelope, it is the first element, and every later element is an audio
chunk. -/
theorem C2_one_config_first :
    ∀ (a : Assistant) (s : ConversationStream) (chunks : List (List Nat)),
      ((a.gen_assist_requests s chunks).1.countP (fun r => r.isConfig) = 1) ∧
      (∃ c, (a.gen_assist_requests s chunks).1.head? = some (AssistRequest.config c)) ∧
      (∀ r ∈ (a.gen_assist_requests s chunks).1.tail, ∃ d, r = AssistRequest.audio_in d) := by
  intro a s chunks
  refine ⟨?_, ⟨_, rfl⟩, ?_⟩
  · show List.countP _ (AssistRequest.config _ :: chunks.map AssistRequest.audio_in) = 1
    rw [List.countP_cons]
    simp only [AssistRequest.isConfig, if_true]
    induction chunks with
    | nil => rfl
    | cons c cs ih => exact ih
  · intro r hr
    show ∃ d, r = AssistRequest.audio_in d
    have : r ∈ chunks.map AssistRequest.audio_in := hr
    obtain ⟨d, _, rfl⟩ := List.mem_map.mp this
    exact ⟨d, rfl⟩

/-- Witness for C2 on a concrete one-chunk turn. -/
theorem C2_one_config_first_witness :
    ((Assistant.init "device-1").gen_assist_requests stream0 [[7, 8]]).1.countP
        (fun r => r.isConfig) = 1 ∧
    (∃ c, ((Assistant.init "device-1").gen_assist_requests stream0 [[7, 8]]).1.head?
        = some (AssistRequest.config c)) ∧
    (∀ r ∈ ((Assistant.init "device-1").gen_assist_requests stream0 [[7, 8]]).1.tail,
      ∃ d, r = AssistRequest.audio_in d) :=
  C2_one_config_first (Assistant.init "device-1") stream0 [[7, 8]]

/-- C3: the retry wrapper makes at most 3 total attempts; a
non-unavailable failure propagates unchanged at its first occurrence
(whether on attempt 1 or 2) without further retries; after three
unavailable-driven attempts the final failure is re-raised unchanged;
and unavailable-unavailable-success returns the successful outcome. -/
theorem C3_retry_policy :
    (∀ run : Nat → Except Failure Bool, (assistWithRetry run).2 ≤ 3) ∧
    (∀ (run : Nat → Except Failure Bool) (e : Failure),
      run 1 = Except.error e → is_grpc_error_unavailable e = false →
      assistWithRetry run = (Except.error e, 1)) ∧
    (∀ (run : Nat → Except Failure Bool) (e1 e2 : Failure),
      run 1 = Except.error e1 → is_grpc_error_unavailable e1 = true →
      run 2 = Except.error e2 → is_grpc_error_unavailable e2 = false →
      assistWithRetry run = (Except.error e2, 2)) ∧
    (∀ (run : Nat → Except Failure Bool) (e1 e2 e3 : Failure),
      run 1 = Except.error e1 → is_grpc_error_unavailable e1 = true →
      run 2 = Except.error e2 → is_grpc_error_unavailable e2 = true →
      run 3 = Except.error e3 →
      assistWithRetry run = (Except.error e3, 3)) ∧
    (∀ (run : Nat → Except Failure Bool) (e1 e2 : Failure) (v : Bool),
      run 1 = Except.error e1 → is_grpc_error_unavailable e1 = true →
      run 2 = Except.error e2 → is_grpc_error_unavailable e2 = true →
      run 3 = Except.ok v →
      assistWithRetry run = (Except.ok v, 3)) := by
  refine ⟨?_, ?_, ?_, ?_, ?_⟩
  · intro run
    exact retryLoop_attempts_le is_grpc_error_unavailable run 2 1
  · intro run e h1 hp
    simp [assistWithRetry, retryLoop, h1, hp]
  · intro run e1 e2 h1 hp1 h2 hp2
    simp [assistWithRetry, retryLoop, h1, hp1, h2, hp2]
  · intro run e1 e2 e3 h1 hp1 h2 hp2 h3
    simp [assistWithRetry, retryLoop, h1, hp1, h2, hp2, h3]
  · intro run e1 e2 v h1 hp1 h2 hp2 h3
    simp [assistWithRetry, retryLoop, h1, hp1, h2, hp2, h3]

/-- Witness for C3: a run that raises UNAVAILABLE twice and then
succeeds returns the successful outcome on attempt 3. -/
theorem C3_retry_policy_witness :
    assistWithRetry runUnavailTwice = (Except.ok true, 3) :=
  C3_retry_policy.2.2.2.2 runUnavailTwice
    (Failure.rpcError StatusCode.unavailable) (Failure.rpcError StatusCode.unavailable)
    true rfl rfl rfl rfl rfl

/-- C4: a non-empty conversation-state blob received as the last such
directive of turn N appears verbatim in the `dialog_state_in` field of
turn N+1's config envelope. -/
theorem C4_conv_state_roundtrip (a : Assistant) (s : ConversationStream)
    (chunks ch2 : List (List Nat)) (resps resps2 : List AssistResponse)
    (cs : List Nat) (h : lastNonEmptyConvState resps = some cs) :
    ∃ c, ((a.assist s chunks resps).assistant.assist
        (a.assist s chunks resps).stream ch2 resps2).requests.head?
        = some (AssistRequest.config c) ∧
      c.dialog_state_in.conversation_state = some cs := by
  obtain ⟨c, hc1, hc2⟩ := assist_requests_head_conv
    (a.assist s chunks resps).assistant (a.assist s chunks resps).stream ch2 resps2
  refine ⟨c, hc1, ?_⟩
  rw [hc2, assist_conv_state, h]

/-- Witness for C4 at a concrete two-turn run. -/
theorem C4_conv_state_roundtrip_witness :
    lastNonEmptyConvState [csResp [1, 2, 3]] = some [1, 2, 3] ∧
    ∃ c, (((Assistant.init "device-1").assist stream0 [] [csResp [1, 2, 3]]).assistant.assist
        ((Assistant.init "device-1").assist stream0 [] [csResp [1, 2, 3]]).stream
        [] []).requests.head?
        = some (AssistRequest.config c) ∧
      c.dialog_state_in.conversation_state = some [1, 2, 3] :=
  ⟨rfl, C4_conv_state_roundtrip (Assistant.init "device-1") stream0 [] []
    [csResp [1, 2, 3]] [] [1, 2, 3] rfl⟩

lemma init_is_new (d : String) : (Assistant.init d).is_new_conversation = true := rfl

lemma textInit_is_new (lc dm dev : String) (disp : Bool) :
    (SampleTextAssistant.init lc dm dev disp).is_new_conversation = true := rfl

/-- C5: across a driver's lifetime, only the very first turn's config
envelope carries `is_new_conversation = true`; every later config
carries false.  Holds for the voice driver and the text variant. -/
theorem C5_is_new_conversation_once :
    (∀ (d : String) (s : ConversationStream) (turns : List TurnInput),
      voiceFlags (Assistant.init d) s turns =
        if turns = [] then [] else true :: List.replicate (turns.length - 1) false) ∧
    (∀ (lc dm dev : String) (disp : Bool)
        (turns : List (String × List AssistResponse)),
      textFlags (SampleTextAssistant.init lc dm dev disp) turns =
        if turns = [] then [] else true :: List.replicate (turns.length - 1) false) := by
  constructor
  · intro d s turns
    cases turns with
    | nil => rfl
    | cons t ts =>
      have hrec := voiceFlags_of_not_new ts
        ((Assistant.init d).assist s t.chunks t.resps).assistant
        ((Assistant.init d).assist s t.chunks t.resps).stream
        (assist_is_new_false _ _ _ _)
      unfold voiceFlags at hrec ⊢
      simp [runTurns, assist_configFlags, hrec, init_is_new]
  · intro lc dm dev disp turns
    cases turns with
    | nil => rfl
    | cons t ts =>
      have hrec := textFlags_of_not_new ts
        ((SampleTextAssistant.init lc dm dev disp).assist t.1 t.2).assistant
        (textAssist_is_new_false _ _ _)
      unfold textFlags at hrec ⊢
      simp [runTextTurns, textAssist_configFlags, hrec, textInit_is_new]

/-- C6: a volume directive of 0 leaves the transport volume unchanged;
a nonzero directive v sets it to exactly v (45 as concrete example,
starting from volume 50). -/
theorem C6_volume_policy :
    (∀ (ts : TurnState) (r : AssistResponse),
      (processResp ts r).stream.volume_percentage =
        if r.dialog_state_out.volume_percentage = 0 then ts.stream.volume_percentage
        else r.dialog_state_out.volume_percentage) ∧
    (processResp turnState0 (volResp 45)).stream.volume_percentage = 45 ∧
    (processResp turnState0 (volResp 0)).stream.volume_percentage = 50 := by
  refine ⟨?_, rfl, rfl⟩
  intro ts r
  rw [processResp_volume]
  by_cases h : r.dialog_state_out.volume_percentage = 0 <;> simp [h]

/-- C7 counterexample: with zero audio-bearing inbound events (here, an
empty inbound stream) the driver still invokes stop-playback once, at
the unconditional stop at the end of the turn — refuting "never invokes
stop-playback". -/
theorem C7_counterexample :
    (∀ r ∈ ([] : List AssistResponse), r.audio_out.audio_data = ([] : List Nat)) ∧
    ((Assistant.init "device-1").assist stream0 [] []).stream.trace.count
        StreamAction.stopPlayback = 1 :=
  ⟨by simp, rfl⟩

/-- C7 amended: with zero audio-bearing inbound events the driver never
invokes start-playback during the turn, and invokes stop-playback
exactly once (the unconditional stop when the inbound stream ends). -/
theorem C7_amended_playback (a : Assistant) (s : ConversationStream)
    (chunks : List (List Nat)) (resps : List AssistResponse)
    (h : ∀ r ∈ resps, r.audio_out.audio_data = []) :
    (a.assist s chunks resps).stream.trace.count StreamAction.startPlayback
        = s.trace.count StreamAction.startPlayback ∧
    (a.assist s chunks resps).stream.trace.count StreamAction.stopPlayback
        = s.trace.count StreamAction.stopPlayback + 1 := by
  have hf := foldl_processResp_playback_counts resps
    { continue_conversation := false
      conversation_state := (a.gen_assist_requests s.start_recording chunks).2.conversation_state
      stream := s.start_recording } h
  constructor
  · show ((resps.foldl processResp _).stream.stop_playback).trace.count _ = _
    rw [ConversationStream.stop_playback]
    simp only [List.count_append, hf.1]
    simp [ConversationStream.start_recording, List.count_append]
  · show ((resps.foldl processResp _).stream.stop_playback).trace.count _ = _
    rw [ConversationStream.stop_playback]
    simp only [List.count_append, hf.2]
    simp [ConversationStream.start_recording, List.count_append]

/-- Witness for the amended C7 on a concrete audio-free turn. -/
theorem C7_amended_playback_witness :
    (∀ r ∈ [micResp MicrophoneMode.followOn], r.audio_out.audio_data = ([] : List Nat)) ∧
    ((Assistant.init "device-1").assist stream0 []
        [micResp MicrophoneMode.followOn]).stream.trace.count StreamAction.startPlayback
      = stream0.trace.count StreamAction.startPlayback ∧
    ((Assistant.init "device-1").assist stream0 []
        [micResp MicrophoneMode.followOn]).stream.trace.count StreamAction.stopPlayback
      = stream0.trace.count StreamAction.stopPlayback + 1 :=
  ⟨by decide,
    C7_amended_playback (Assistant.init "device-1") stream0 []
      [micResp MicrophoneMode.followOn] (by decide)⟩

/-- C8: one inbound event overwrites the stored conversation state iff
it carries a non-empty `conversation_state`, and no other field of the
event affects it; in both the voice and the text drivers. -/
theorem C8_conv_state_frame :
    (∀ (ts : TurnState) (r : AssistResponse),
      (processResp ts r).conversation_state =
        if r.dialog_state_out.conversation_state = [] then ts.conversation_state
        else some r.dialog_state_out.conversation_state) ∧
    (∀ (ts : TextTurnState) (r : AssistResponse),
      (processTextResp ts r).conversation_state =
        if r.dialog_state_out.conversation_state = [] then ts.conversation_state
        else some r.dialog_state_out.conversation_state) := by
  constructor
  · intro ts r
    rw [processResp_conv_state]
    by_cases h : r.dialog_state_out.conversation_state = [] <;> simp [h]
  · intro ts r
    rw [processTextResp_conv_state]
    by_cases h : r.dialog_state_out.conversation_state = [] <;> simp [h]

/-- C9: the text turn sends a single config-only envelope carrying the
literal text query (no audio-in config), and returns the last non-empty
supplemental display text and the last non-empty rich-content payload,
each `none` when never observed; the result is fully determined by those
two fields, with no microphone-mode or continuation handling. -/
theorem C9_text_variant (a : SampleTextAssistant) (q : String)
    (resps : List AssistResponse) :
    (∃ c, (a.assist q resps).requests = [AssistRequest.config c] ∧
      c.text_query = some q ∧ c.audio_in_config = none) ∧
    (a.assist q resps).text_response = lastSupplementalText resps ∧
    (a.assist q resps).html_response = lastScreenData resps := by
  refine ⟨⟨_, rfl, rfl, rfl⟩, ?_, ?_⟩
  · show (resps.foldl processTextResp _).text_response = _
    rw [foldl_processTextResp_text]
    cases lastSupplementalText resps <;> rfl
  · show (resps.foldl processTextResp _).html_response = _
    rw [foldl_processTextResp_html]
    cases lastScreenData resps <;> rfl

/-- C10: an event whose microphone-mode is unspecified leaves the pending
continuation flag unchanged; in particular [follow-on, unspecified]
still yields continuation = true. -/
theorem C10_unspecified_mic_noop :
    (∀ (ts : TurnState) (r : AssistResponse),
      r.dialog_state_out.microphone_mode = MicrophoneMode.unspecified →
      (processResp ts r).continue_conversation = ts.continue_conversation) ∧
    ((Assistant.init "device-1").assist stream0 []
        [micResp MicrophoneMode.followOn,
          micResp MicrophoneMode.unspecified]).continue_conversation = true := by
  refine ⟨?_, rfl⟩
  intro ts r h
  rw [processResp_continue, h]
  rfl

/-- Witness for C10 on a concrete unspecified-mode event. -/
theorem C10_unspecified_mic_noop_witness :
    (micResp MicrophoneMode.unspecified).dialog_state_out.microphone_mode
        = MicrophoneMode.unspecified ∧
    (processResp { turnState0 with continue_conversation := true }
        (micResp MicrophoneMode.unspecified)).continue_conversation = true :=
  ⟨rfl, C10_unspecified_mic_noop.1
    { turnState0 with continue_conversation := true }
    (micResp MicrophoneMode.unspecified) rfl⟩

end TelephonePi
